import Mathlib

/-!
Verification of the `SecureMessaging` session protocol
(`secure-messaging-system.js`): bundle verification, session
establishment, the symmetric ratchet (`updateChainKey`), and
authenticated encryption / decryption with anti-replay counters.

The JavaScript class is shallowly embedded: byte buffers are `List Nat`,
the mutable `sessionKeys` map is an association list threaded through
every operation, and the cryptographic primitives supplied by the Node
`crypto` module (SHA-256, HMAC-SHA256, AES-128-CBC, base64, RSA
signature verification) are fields of a `Crypto` record, so that
theorems quantify over the primitives and concrete witnesses can
instantiate them with executable stand-ins.  Randomness
(`crypto.randomBytes`) is passed in explicitly.
-/

namespace SecureMsg

/-- The cryptographic primitives used by `secure-messaging-system.js`,
abstracted as a record of pure functions.  `aesCbcDec` returns `none`
when the cipher-level decryption throws (bad padding); `verifyPrim`
models `verify.verify`, which may either return a boolean or throw. -/
structure Crypto where
  sha256 : List Nat → List Nat
  hmacSha256 : List Nat → List Nat → List Nat
  aesCbcEnc : List Nat → List Nat → String → String
  aesCbcDec : List Nat → List Nat → String → Option String
  b64enc : List Nat → String
  b64dec : String → List Nat
  verifyPrim : String → String → String → Except String Bool

/-- UTF-8 bytes of a string; all strings fed to the hash primitives in
the source (labels, JSON text, base64, hex ids) are ASCII, where code
points and UTF-8 bytes coincide. -/
def strBytes (s : String) : List Nat :=
  s.data.map Char.toNat

/-- One entry of `this.sessionKeys`: the object stored by
`establishSession` (lines 145-151 of the source). -/
structure Session where
  recipientId : String
  encryptionKey : List Nat
  macKey : List Nat
  chainKey : List Nat
  messageCounter : Nat
deriving DecidableEq, Repr

/-- The message package built by `encryptMessage` (lines 205-214):
`iv` and `ciphertext` and `mac` are base64 strings. -/
structure MessagePackage where
  sessionId : String
  counter : Nat
  iv : String
  ciphertext : String
  mac : String
deriving DecidableEq, Repr

/-- The registration bundle produced by `register` and consumed by
`establishSession`. -/
structure Bundle where
  userId : String
  identityKey : String
  preKey : String
  oneTimePreKeys : List String
  signature : String
deriving DecidableEq, Repr

/-- The `this.sessionKeys` map, as an association list in insertion
order (JavaScript `Map` iteration order). -/
def SessionStore := List (String × Session)
deriving DecidableEq

/-- Lookup `sessionKeys.get(sid)`. -/
def getSession : SessionStore → String → Option Session
  | [], _ => none
  | (k, v) :: rest, sid => if k = sid then some v else getSession rest sid

/-- Update `sessionKeys.set(sid, s)`: replace in place if present, else
append (JavaScript `Map.set` semantics). -/
def setSession : SessionStore → String → Session → SessionStore
  | [], sid, s => [(sid, s)]
  | (k, v) :: rest, sid, s =>
      if k = sid then (k, s) :: rest else (k, v) :: setSession rest sid s

/-- The errors thrown by the core operations:
`Session not found`, `Potential replay attack detected`,
`Message authentication failed`, a cipher-level `decipher.final` throw,
and `Invalid signature on recipient bundle`. -/
inductive SMError
  | sessionNotFound
  | replayDetected
  | macMismatch
  | decryptionFailure
  | invalidBundleSignature
deriving DecidableEq, Repr

/-- Source `verify(data, signature, publicKey)` (lines 102-112): run the
verification primitive inside try/catch, mapping any thrown error to
`false`. -/
def verify (c : Crypto) (data signature publicKey : String) : Bool :=
  match c.verifyPrim data signature publicKey with
  | .ok b => b
  | .error _ => false

/-- Source `deriveKeys(masterSecret)` (lines 169-179): three label-separated
SHA-256 hashes, each truncated to 16 bytes, giving
(encryptionKey, macKey, chainKey). -/
def deriveKeys (c : Crypto) (masterSecret : List Nat) :
    List Nat × List Nat × List Nat :=
  ((c.sha256 (masterSecret ++ strBytes "encryption")).take 16,
   (c.sha256 (masterSecret ++ strBytes "mac")).take 16,
   (c.sha256 (masterSecret ++ strBytes "chain")).take 16)

/-- The explicit randomness drawn by `establishSession`:
`crypto.randomBytes(32)` for the "shared secret" and the hex string of
`crypto.randomBytes(16)` for `generateRandomId()`. -/
structure EstablishRnd where
  sharedSecret : List Nat
  idHex : String
deriving DecidableEq, Repr

/-- Source `establishSession(recipientId, recipientBundle)` (lines 120-154).
Verifies the bundle signature, selects (but never uses)
`oneTimePreKeys[0]`, derives keys from the locally drawn random
`sharedSecret`, and stores a fresh session with counter 0. -/
def establishSession (c : Crypto) (store : SessionStore)
    (recipientId : String) (bundle : Bundle) (rnd : EstablishRnd) :
    Except SMError (String × SessionStore) :=
  if verify c bundle.preKey bundle.signature bundle.identityKey then
    let _selectedOneTimePreKey := bundle.oneTimePreKeys.head?
    let sharedSecret := rnd.sharedSecret
    let sessionId := rnd.idHex ++ "-" ++ recipientId
    let keys := deriveKeys c sharedSecret
    .ok (sessionId,
      setSession store sessionId
        { recipientId := recipientId
          encryptionKey := keys.1
          macKey := keys.2.1
          chainKey := keys.2.2
          messageCounter := 0 })
  else
    .error .invalidBundleSignature

/-- The `JSON.stringify` text of the mac-less message package, with insertion
order sessionId, counter, iv, ciphertext.  On the decrypt side
`JSON.stringify({...package, mac: undefined})` omits the `undefined`
field and yields the identical text.  The field values that occur
(base64, hex-id-derived sessionIds) need no JSON escaping. -/
def serializeNoMac (sessionId : String) (counter : Nat)
    (iv ciphertext : String) : String :=
  "\x7b\"sessionId\":\"" ++ sessionId ++ "\",\"counter\":" ++
    toString counter ++ ",\"iv\":\"" ++ iv ++ "\",\"ciphertext\":\"" ++
    ciphertext ++ "\"\x7d"

/-- Source `calculateMAC(messagePackage, macKey)` (lines 268-272):
base64 of HMAC-SHA256 over the JSON serialization. -/
def calculateMAC (c : Crypto) (sessionId : String) (counter : Nat)
    (iv ciphertext : String) (macKey : List Nat) : String :=
  c.b64enc (c.hmacSha256 macKey
    (strBytes (serializeNoMac sessionId counter iv ciphertext)))

/-- Source `updateChainKey(sessionId)` key-schedule step (lines 284-292):
`newKeyMaterial = HMAC-SHA256(key = "RatchetStep", data = chainKey)`;
then `encryptionKey = slice(0,16)`, `macKey = slice(16,32)`,
`chainKey = slice(0,16)` (the source reuses the first 16 bytes). -/
def updateChainKey (c : Crypto) (s : Session) : Session :=
  let newKeyMaterial := c.hmacSha256 (strBytes "RatchetStep") s.chainKey
  { s with
    encryptionKey := newKeyMaterial.take 16
    macKey := (newKeyMaterial.drop 16).take 16
    chainKey := newKeyMaterial.take 16 }

/-- Source `encryptMessage(sessionId, message)` (lines 187-220) with the fresh
IV passed explicitly.  Returns the thrown error or the package,
together with the post-call `sessionKeys` map. -/
def encryptMessage (c : Crypto) (store : SessionStore)
    (sessionId message : String) (iv : List Nat) :
    Except SMError MessagePackage × SessionStore :=
  match getSession store sessionId with
  | none => (.error .sessionNotFound, store)
  | some session =>
    let session := { session with messageCounter := session.messageCounter + 1 }
    let ivB64 := c.b64enc iv
    let encrypted := c.aesCbcEnc session.encryptionKey iv message
    let mac := calculateMAC c sessionId session.messageCounter ivB64 encrypted
      session.macKey
    let pkg : MessagePackage :=
      { sessionId := sessionId
        counter := session.messageCounter
        iv := ivB64
        ciphertext := encrypted
        mac := mac }
    (.ok pkg, setSession store sessionId (updateChainKey c session))

/-- Source `decryptMessage(messagePackage)` (lines 227-260): session lookup,
replay check, MAC check, cipher decrypt, then counter update and one
ratchet step.  Errors return the store unchanged (the throw happens
before any mutation). -/
def decryptMessage (c : Crypto) (store : SessionStore)
    (pkg : MessagePackage) : Except SMError String × SessionStore :=
  match getSession store pkg.sessionId with
  | none => (.error .sessionNotFound, store)
  | some session =>
    if pkg.counter ≤ session.messageCounter then
      (.error .replayDetected, store)
    else
      let calculatedMac :=
        calculateMAC c pkg.sessionId pkg.counter pkg.iv pkg.ciphertext
          session.macKey
      if pkg.mac ≠ calculatedMac then
        (.error .macMismatch, store)
      else
        match c.aesCbcDec session.encryptionKey (c.b64dec pkg.iv)
            pkg.ciphertext with
        | none => (.error .decryptionFailure, store)
        | some decrypted =>
          let session := updateChainKey c
            { session with messageCounter := pkg.counter }
          (.ok decrypted, setSession store pkg.sessionId session)

/-- Decidable equality for `Except`, used to evaluate concrete runs. -/
instance {ε α : Type} [DecidableEq ε] [DecidableEq α] : DecidableEq (Except ε α)
  | .ok x, .ok y =>
      if h : x = y then .isTrue (h ▸ rfl) else .isFalse fun hc => h (Except.ok.inj hc)
  | .error x, .error y =>
      if h : x = y then .isTrue (h ▸ rfl) else .isFalse fun hc => h (Except.error.inj hc)
  | .ok _, .error _ => .isFalse fun hc => Except.noConfusion hc
  | .error _, .ok _ => .isFalse fun hc => Except.noConfusion hc

/-- Run `encryptMessage` sequentially on a list of (message, fresh IV)
pairs, collecting the produced packages; stops at the first error
(`encryptMessage` only fails when the session is absent). -/
def encryptAll (c : Crypto) (sessionId : String) :
    SessionStore → List (String × List Nat) →
    List MessagePackage × SessionStore
  | store, [] => ([], store)
  | store, (m, iv) :: rest =>
    match encryptMessage c store sessionId m iv with
    | (.ok pkg, store') =>
      let r := encryptAll c sessionId store' rest
      (pkg :: r.1, r.2)
    | (.error _, store') => ([], store')

/-- The keys of the session stored by a successful `establishSession`
run: (encryptionKey, macKey, chainKey). -/
def establishedKeys (c : Crypto) (store : SessionStore) (rid : String)
    (b : Bundle) (rnd : EstablishRnd) :
    Option (List Nat × List Nat × List Nat) :=
  match establishSession c store rid b rnd with
  | .ok (sid, st) =>
      (getSession st sid).map fun s => (s.encryptionKey, s.macKey, s.chainKey)
  | .error _ => none

/-- Executable stand-ins for the cryptographic primitives, used to
evaluate the protocol logic on concrete inputs.  The hash and cipher
are trivial placeholders (the theorems below never rely on their
strength, only on the round-trip hypotheses they satisfy); `b64enc`
is the code-point bijection on byte lists; the verification primitive
throws on the signature `"bad"` and accepts exactly `"good"`. -/
def toyCrypto : Crypto where
  sha256 := fun bs => bs
  hmacSha256 := fun key data => key ++ data
  aesCbcEnc := fun _ _ m => m
  aesCbcDec := fun _ _ ct => some ct
  b64enc := fun bs => String.mk (bs.map Char.ofNat)
  b64dec := fun s => s.data.map Char.toNat
  verifyPrim := fun _ sig _ =>
    if sig = "bad" then .error "primitive threw" else .ok (sig = "good")

/-- A concrete established session (counter 0) for evaluating runs. -/
def demoSession : Session :=
  { recipientId := "bob"
    encryptionKey := [1, 2]
    macKey := [3, 4]
    chainKey := [5, 6]
    messageCounter := 0 }

/-- A store holding `demoSession` under its session id. -/
def demoStore : SessionStore := [("sid-bob", demoSession)]

/-- A valid package for `demoSession`: counter 1 and a correctly
computed MAC, exactly as `encryptMessage` would emit it. -/
def demoPkg : MessagePackage :=
  { sessionId := "sid-bob"
    counter := 1
    iv := "A"
    ciphertext := "hi"
    mac := calculateMAC toyCrypto "sid-bob" 1 "A" "hi" demoSession.macKey }

/-- The package `demoPkg` with the lowest bit of its counter flipped (1
becomes 0),
all other fields, including the MAC, untouched. -/
def demoTampered : MessagePackage :=
  { demoPkg with counter := demoPkg.counter ^^^ 1 }

/-- A session whose counter has already advanced to 2, for exercising
the counter-gap behaviour of `decryptMessage`. -/
def demoGapSession : Session :=
  { recipientId := "bob"
    encryptionKey := [1, 2]
    macKey := [3, 4]
    chainKey := [5, 6]
    messageCounter := 2 }

/-- A store holding `demoGapSession`. -/
def demoGapStore : SessionStore := [("sid-gap", demoGapSession)]

/-- A valid package for `demoGapSession` whose counter jumps from 2
straight to 7 (a gap of 5). -/
def demoGapPkg : MessagePackage :=
  { sessionId := "sid-gap"
    counter := 7
    iv := "B"
    ciphertext := "skip"
    mac := calculateMAC toyCrypto "sid-gap" 7 "B" "skip" demoGapSession.macKey }

/-- The registration bundle of Bob, as Alice fetches it. -/
def bundleB : Bundle :=
  { userId := "bob"
    identityKey := "ik-bob"
    preKey := "pk-bob"
    oneTimePreKeys := ["otk-b0", "otk-b1"]
    signature := "good" }

/-- The registration bundle of Alice, as Bob fetches it. -/
def bundleA : Bundle :=
  { userId := "alice"
    identityKey := "ik-alice"
    preKey := "pk-alice"
    oneTimePreKeys := ["otk-a0"]
    signature := "good" }

/-- Bundle `bundleA` with its one-time prekey list emptied. -/
def bundleAEmpty : Bundle := { bundleA with oneTimePreKeys := [] }

/-- The randomness drawn when Alice calls `establishSession`. -/
def rndA : EstablishRnd :=
  { sharedSecret := List.replicate 32 0, idHex := "00ff" }

/-- The randomness drawn when Bob independently calls
`establishSession`: a different 32-byte draw. -/
def rndB : EstablishRnd :=
  { sharedSecret := 1 :: List.replicate 31 0, idHex := "ab12" }

end SecureMsg
namespace SecureMsg

/-- Setting then getting the same key in the session map returns the
stored session. -/
theorem getSession_setSession_self (st : SessionStore) (sid : String)
    (s : Session) : getSession (setSession st sid s) sid = some s := by
  induction st with
  | nil => simp [setSession, getSession]
  | cons kv rest ih =>
    obtain ⟨k, v⟩ := kv
    by_cases h : k = sid
    · simp [setSession, getSession, h]
    · simp [setSession, getSession, h, ih]

/-- Unfolding of `encryptMessage` on a present session: the package it
emits and the post-call store. -/
theorem encryptMessage_eq (c : Crypto) (st : SessionStore) (sid m : String)
    (iv : List Nat) (s : Session) (hs : getSession st sid = some s) :
    encryptMessage c st sid m iv =
      (.ok { sessionId := sid
             counter := s.messageCounter + 1
             iv := c.b64enc iv
             ciphertext := c.aesCbcEnc s.encryptionKey iv m
             mac := calculateMAC c sid (s.messageCounter + 1) (c.b64enc iv)
                      (c.aesCbcEnc s.encryptionKey iv m) s.macKey },
       setSession st sid
         (updateChainKey c { s with messageCounter := s.messageCounter + 1 })) := by
  simp [encryptMessage, hs]

/-- C3: two instances holding sessions with identical key state under
the same sessionId round-trip every plaintext: decrypting (on the
second instance) the package produced by `encryptMessage` (on the
first) returns exactly the original message.  The cipher and base64
round-trip facts used are hypotheses on the primitives. -/
theorem encrypt_decrypt_roundtrip (c : Crypto) (st1 st2 : SessionStore)
    (sid m : String) (iv : List Nat) (s1 s2 : Session)
    (hs1 : getSession st1 sid = some s1)
    (hs2 : getSession st2 sid = some s2)
    (hek : s2.encryptionKey = s1.encryptionKey)
    (hmk : s2.macKey = s1.macKey)
    (_hck : s2.chainKey = s1.chainKey)
    (hctr : s2.messageCounter = s1.messageCounter)
    (hb64 : c.b64dec (c.b64enc iv) = iv)
    (hdec : c.aesCbcDec s1.encryptionKey iv (c.aesCbcEnc s1.encryptionKey iv m)
              = some m) :
    ∃ pkg st1', encryptMessage c st1 sid m iv = (.ok pkg, st1') ∧
      (decryptMessage c st2 pkg).1 = .ok m := by
  refine ⟨_, _, encryptMessage_eq c st1 sid m iv s1 hs1, ?_⟩
  simp [decryptMessage, hs2, hctr, hmk, hek, hb64, hdec]

end SecureMsg
namespace SecureMsg

/-- C4: any package whose counter is at or below the session counter
is rejected as a replay, with the store returned untouched; the result
is the same for every choice of cryptographic primitives, so no MAC is
computed on this path. -/
theorem decryptMessage_replay_rejected (st : SessionStore)
    (pkg : MessagePackage) (s : Session)
    (hs : getSession st pkg.sessionId = some s)
    (hc : pkg.counter ≤ s.messageCounter) :
    ∀ c : Crypto, decryptMessage c st pkg = (.error .replayDetected, st) := by
  intro c
  simp [decryptMessage, hs, hc]

/-- C4 witness: replaying the last accepted counter (2) against
`demoGapSession` yields the replay error and an unchanged store. -/
theorem decryptMessage_replay_rejected_witness :
    decryptMessage toyCrypto demoGapStore { demoGapPkg with counter := 2 } =
      (.error .replayDetected, demoGapStore) :=
  decryptMessage_replay_rejected demoGapStore
    { demoGapPkg with counter := 2 } demoGapSession (by decide) (by decide)
    toyCrypto

/-- C5 counterexample: `demoPkg` is an otherwise valid package (it
decrypts to `"hi"`), yet flipping the lowest bit of its `counter`
field (1 becomes 0) makes `decryptMessage` fail with the replay error,
not with the MAC-mismatch error the claim demands. -/
theorem decrypt_counter_bitflip_not_macMismatch :
    (decryptMessage toyCrypto demoStore demoPkg).1 = .ok "hi" ∧
    demoTampered = { demoPkg with counter := demoPkg.counter ^^^ 1 } ∧
    (decryptMessage toyCrypto demoStore demoTampered).1 =
      .error .replayDetected ∧
    SMError.replayDetected ≠ SMError.macMismatch :=
  ⟨by decide, rfl, by decide, by decide⟩

/-- C5 (amended): tampering with a package field is caught as
`MacMismatch` before any decryption — provided the package still
resolves to its session, its counter still exceeds the session
counter, and the recomputed MAC no longer matches.  Quantifying over
the decryption primitive `dec` shows no decryption is attempted. -/
theorem decryptMessage_tamper_macMismatch (c : Crypto) (st : SessionStore)
    (pkg : MessagePackage) (s : Session)
    (hs : getSession st pkg.sessionId = some s)
    (hc : s.messageCounter < pkg.counter)
    (hm : pkg.mac ≠
      calculateMAC c pkg.sessionId pkg.counter pkg.iv pkg.ciphertext s.macKey) :
    ∀ dec, decryptMessage { c with aesCbcDec := dec } st pkg =
      (.error .macMismatch, st) := by
  intro dec
  have hc' : ¬ pkg.counter ≤ s.messageCounter := by omega
  simp only [calculateMAC] at hm
  simp [decryptMessage, calculateMAC, hs, hc', hm]

/-- C5 (amended) witness: flipping the low bit of the last ciphertext
byte of `demoPkg` (`"hi"` becomes `"hh"`) is rejected as a MAC
mismatch with the store unchanged. -/
theorem decryptMessage_tamper_macMismatch_witness :
    decryptMessage toyCrypto demoStore { demoPkg with ciphertext := "hh" } =
      (.error .macMismatch, demoStore) :=
  decryptMessage_tamper_macMismatch toyCrypto demoStore
    { demoPkg with ciphertext := "hh" } demoSession (by decide) (by decide)
    (by decide) toyCrypto.aesCbcDec

/-- C6: every failing `encryptMessage` or `decryptMessage` call —
session not found, replay, MAC mismatch, or cipher-level decryption
failure — returns the `sessionKeys` store exactly as it was; only a
fully successful call mutates it. -/
theorem failed_calls_leave_store_unchanged :
    (∀ (c : Crypto) (st : SessionStore) (sid m : String) (iv : List Nat)
       (e : SMError), (encryptMessage c st sid m iv).1 = .error e →
       (encryptMessage c st sid m iv).2 = st) ∧
    (∀ (c : Crypto) (st : SessionStore) (pkg : MessagePackage) (e : SMError),
       (decryptMessage c st pkg).1 = .error e →
       (decryptMessage c st pkg).2 = st) := by
  constructor
  · intro c st sid m iv e h
    cases hg : getSession st sid with
    | none => simp [encryptMessage, hg]
    | some s =>
      rw [encryptMessage_eq c st sid m iv s hg] at h
      exact absurd h (by simp)
  · intro c st pkg e
    simp only [decryptMessage]
    split
    · intro _; rfl
    · split
      · intro _; rfl
      · split
        · intro _; rfl
        · split
          · intro _; rfl
          · intro h; exact absurd h (by simp)

/-- C6 witness: an encrypt against an empty store and a decrypt of a
replayed package both fail and both leave their stores unchanged. -/
theorem failed_calls_leave_store_unchanged_witness :
    (encryptMessage toyCrypto [] "sid-bob" "hi" [65]).2 = ([] : SessionStore) ∧
    (decryptMessage toyCrypto demoStore demoTampered).2 = demoStore :=
  ⟨failed_calls_leave_store_unchanged.1 toyCrypto [] "sid-bob" "hi" [65]
      .sessionNotFound (by decide),
   failed_calls_leave_store_unchanged.2 toyCrypto demoStore demoTampered
      .replayDetected (by decide)⟩

end SecureMsg
namespace SecureMsg

/-- The ratchet step never touches the message counter. -/
theorem updateChainKey_messageCounter (c : Crypto) (s : Session) (n : Nat) :
    (updateChainKey c { s with messageCounter := n }).messageCounter = n :=
  rfl

/-- Generalisation for C7: starting from any counter value, a run of
sequential encrypts emits counters k+1, k+2, … and leaves the session
counter advanced by the number of messages. -/
theorem encryptAll_counters (c : Crypto) (sid : String)
    (msgs : List (String × List Nat)) :
    ∀ (st : SessionStore) (s : Session), getSession st sid = some s →
      (encryptAll c sid st msgs).1.map MessagePackage.counter =
        List.range' (s.messageCounter + 1) msgs.length ∧
      ∃ s', getSession (encryptAll c sid st msgs).2 sid = some s' ∧
        s'.messageCounter = s.messageCounter + msgs.length := by
  induction msgs with
  | nil =>
    intro st s hs
    exact ⟨rfl, s, hs, rfl⟩
  | cons p rest ih =>
    intro st s hs
    obtain ⟨m, iv⟩ := p
    have hstep := encryptMessage_eq c st sid m iv s hs
    have hs' := getSession_setSession_self st sid
      (updateChainKey c { s with messageCounter := s.messageCounter + 1 })
    obtain ⟨h1, s', h2, h3⟩ := ih _ _ hs'
    rw [updateChainKey_messageCounter] at h1 h3
    simp only [encryptAll, hstep]
    constructor
    · simp only [List.map_cons, List.length_cons, h1,
        List.range'_succ (s.messageCounter + 1) rest.length 1]
    · refine ⟨s', h2, ?_⟩
      simp only [List.length_cons]
      omega

/-- C7: from a freshly established session (counter 0), N sequential
successful encrypts emit packages whose counters are exactly
1, 2, …, N, and leave the session counter equal to N. -/
theorem encryptMessage_monotonic_counters (c : Crypto) (st : SessionStore)
    (sid : String) (s : Session) (msgs : List (String × List Nat))
    (hs : getSession st sid = some s) (h0 : s.messageCounter = 0) :
    (encryptAll c sid st msgs).1.map MessagePackage.counter =
      List.range' 1 msgs.length ∧
    ∃ s', getSession (encryptAll c sid st msgs).2 sid = some s' ∧
      s'.messageCounter = msgs.length := by
  obtain ⟨h1, s', h2, h3⟩ := encryptAll_counters c sid msgs st s hs
  rw [h0] at h1 h3
  exact ⟨h1, s', h2, by omega⟩

/-- C7 witness: three encrypts on `demoSession` yield counters
[1, 2, 3] and a session counter of 3. -/
theorem encryptMessage_monotonic_counters_witness :
    (encryptAll toyCrypto "sid-bob" demoStore
        [("a", [1]), ("b", [2]), ("c", [3])]).1.map MessagePackage.counter =
      List.range' 1 3 ∧
    ∃ s', getSession (encryptAll toyCrypto "sid-bob" demoStore
        [("a", [1]), ("b", [2]), ("c", [3])]).2 "sid-bob" = some s' ∧
      s'.messageCounter = 3 :=
  encryptMessage_monotonic_counters toyCrypto demoStore "sid-bob" demoSession
    [("a", [1]), ("b", [2]), ("c", [3])] (by decide) (by decide)

/-- C8: `verify` is a total boolean function of its inputs: whenever
the underlying verification primitive throws, `verify` returns
`false` (fail-closed), and whenever the primitive returns a boolean,
`verify` passes it through — so `verify` never propagates an
exception. -/
theorem verify_total_fail_closed :
    ∀ (c : Crypto) (d sg k : String),
      (∀ e, c.verifyPrim d sg k = .error e → verify c d sg k = false) ∧
      (∀ b, c.verifyPrim d sg k = .ok b → verify c d sg k = b) := by
  intro c d sg k
  constructor
  · intro e h; simp [verify, h]
  · intro b h; simp [verify, h]

/-- C8 witness: the toy primitive throws on signature `"bad"`, and
`verify` maps that failure to `false`. -/
theorem verify_total_fail_closed_witness :
    verify toyCrypto "data" "bad" "key" = false :=
  (verify_total_fail_closed toyCrypto "data" "bad" "key").1
    "primitive threw" (by decide)

/-- C9: `decryptMessage` accepts any package whose counter strictly
exceeds the session counter, however large the gap; on success it sets
the session counter to the package counter and applies exactly one
`updateChainKey` step. -/
theorem decryptMessage_accepts_counter_gap (c : Crypto) (st : SessionStore)
    (pkg : MessagePackage) (s : Session) (m : String)
    (hs : getSession st pkg.sessionId = some s)
    (hc : s.messageCounter < pkg.counter)
    (hm : pkg.mac =
      calculateMAC c pkg.sessionId pkg.counter pkg.iv pkg.ciphertext s.macKey)
    (hd : c.aesCbcDec s.encryptionKey (c.b64dec pkg.iv) pkg.ciphertext = some m) :
    decryptMessage c st pkg =
      (.ok m, setSession st pkg.sessionId
        (updateChainKey c { s with messageCounter := pkg.counter })) := by
  have hc' : ¬ pkg.counter ≤ s.messageCounter := by omega
  simp [decryptMessage, hs, hc', hm, hd]

/-- C9 witness: a package jumping the counter from 2 to 7 (gap 5)
is accepted and the stored counter becomes 7 after one ratchet step. -/
theorem decryptMessage_accepts_counter_gap_witness :
    decryptMessage toyCrypto demoGapStore demoGapPkg =
      (.ok "skip", setSession demoGapStore "sid-gap"
        (updateChainKey toyCrypto
          { demoGapSession with messageCounter := 7 })) :=
  decryptMessage_accepts_counter_gap toyCrypto demoGapStore demoGapPkg
    demoGapSession "skip" (by decide) (by decide) (by decide) (by decide)

/-- C10: two bundles with the same identity key, prekey, signature and
userId but arbitrary (possibly empty) one-time prekey lists produce
identical `establishSession` results under the same randomness — the
selected one-time prekey influences nothing and nothing is marked
consumed — and, when the signature verifies, establishment succeeds. -/
theorem establishSession_ignores_oneTimePreKeys (c : Crypto)
    (st : SessionStore) (rid : String) (b1 b2 : Bundle) (rnd : EstablishRnd)
    (_hu : b1.userId = b2.userId)
    (hi : b1.identityKey = b2.identityKey)
    (hp : b1.preKey = b2.preKey)
    (hsig : b1.signature = b2.signature)
    (hv : verify c b1.preKey b1.signature b1.identityKey = true) :
    establishSession c st rid b1 rnd = establishSession c st rid b2 rnd ∧
    ∃ st', establishSession c st rid b1 rnd =
      .ok (rnd.idHex ++ "-" ++ rid, st') := by
  have hv2 : verify c b2.preKey b2.signature b2.identityKey = true := by
    rw [← hi, ← hp, ← hsig]; exact hv
  constructor
  · simp [establishSession, hv, hv2]
  · refine ⟨setSession st (rnd.idHex ++ "-" ++ rid)
      { recipientId := rid
        encryptionKey := (deriveKeys c rnd.sharedSecret).1
        macKey := (deriveKeys c rnd.sharedSecret).2.1
        chainKey := (deriveKeys c rnd.sharedSecret).2.2
        messageCounter := 0 }, ?_⟩
    simp [establishSession, hv]

/-- C10 witness: the Alice bundle with one one-time prekey and the same
bundle with none give identical sessions; establishment succeeds on
the empty list. -/
theorem establishSession_ignores_oneTimePreKeys_witness :
    establishSession toyCrypto [] "alice" bundleA rndB =
      establishSession toyCrypto [] "alice" bundleAEmpty rndB ∧
    ∃ st', establishSession toyCrypto [] "alice" bundleA rndB =
      .ok (rndB.idHex ++ "-" ++ "alice", st') :=
  establishSession_ignores_oneTimePreKeys toyCrypto [] "alice" bundleA
    bundleAEmpty rndB rfl rfl rfl rfl (by decide)

/-- C1: the "shared secret" of `establishSession` is
`crypto.randomBytes(32)`, drawn locally and independently on each
side, so two peers establishing from the bundles of each other end up with
different key material whenever their random draws differ: here both
establishments succeed yet the stored (encryptionKey, macKey,
chainKey) triples disagree. -/
theorem establishSession_secrets_disagree :
    (establishedKeys toyCrypto [] "bob" bundleB rndA).isSome = true ∧
    (establishedKeys toyCrypto [] "alice" bundleA rndB).isSome = true ∧
    establishedKeys toyCrypto [] "bob" bundleB rndA ≠
      establishedKeys toyCrypto [] "alice" bundleA rndB := by
  decide

/-- C2: in `updateChainKey` the new `chainKey` is `slice(0, 16)` of
the same HMAC output as the new `encryptionKey`, so the two always
alias — for every choice of primitives and every session state. -/
theorem updateChainKey_chainKey_aliases_encryptionKey (c : Crypto)
    (s : Session) :
    (updateChainKey c s).chainKey = (updateChainKey c s).encryptionKey :=
  rfl

end SecureMsg
namespace SecureMsg

/-- C3 witness: encrypting "hi" on one copy of `demoStore` and
decrypting the resulting package on another copy returns "hi". -/
theorem encrypt_decrypt_roundtrip_witness :
    ∃ pkg st1', encryptMessage toyCrypto demoStore "sid-bob" "hi" [65] =
      (.ok pkg, st1') ∧
      (decryptMessage toyCrypto demoStore pkg).1 = .ok "hi" :=
  encrypt_decrypt_roundtrip toyCrypto demoStore demoStore "sid-bob" "hi" [65]
    demoSession demoSession (by decide) (by decide) rfl rfl rfl rfl
    (by decide) rfl

end SecureMsg
